import Mathlib

/-!
Shallow embedding of `src/slidedeckai/helpers/pptx_helper.py` (slide-deck-ai).

The embedding models the content-to-slide layout engine: bullet flattening,
inline emphasis formatting, layout classification and rendering, placeholder
resolution, key-message callouts, and the presentation assembler.

Modelling conventions:
* Python dict key access `d['k']` is modelled with `Option` fields; a missing
  key raises `PErr.keyError`, mirrored by `Except`.
* Geometry (positions, sizes, colours) is not modelled; the rendered output
  records the textual/structural content each handler produces.
* External collaborators (Pexels image search, icon file store) are modelled
  as oracle parameters; the two `random.random()` draws deciding image
  decoration are abstracted as a `DecorDecision` parameter.
* A slide that was added to the presentation and then abandoned because an
  exception was raised mid-build is recorded as `ContentSlide.abandoned`
  (its partially-set contents are not tracked).
-/

namespace SlideDeckAI

/-- Python exceptions that the modelled code can raise. -/
inductive PErr where
  | keyError (k : String)
  | attributeError (msg : String)
  | indexError
deriving Repr, DecidableEq

/-- Python dict key access `d['k']`: raises `KeyError` when the key is absent. -/
def getKey {α : Type} (o : Option α) (k : String) : Except PErr α :=
  match o with
  | some v => .ok v
  | none => .error (.keyError k)

/-- An element of a `bullet_points` JSON list: a string, a nested list, or a
column dict (`{heading, bullet_points}`) as used by the double-column layout. -/
inductive Item where
  | str (s : String)
  | list (xs : List Item)
  | dict (heading : Option String) (bullet_points : Option (List Item))

/-- The `table` value of a slide dict; each field may be absent
(`.get('headers', [])` / `.get('rows', [])` in the source). -/
structure TableJson where
  headers : Option (List String) := none
  rows : Option (List (List String)) := none

/-- A slide dict (`slide_json` in the source). Every key may be absent. -/
structure SlideJson where
  heading : Option String := none
  bullet_points : Option (List Item) := none
  key_message : Option String := none
  img_keywords : Option String := none
  table : Option TableJson := none

/-- Python `s.startswith(p)`. -/
def pyStartsWith (s p : String) : Bool := p.toList.isPrefixOf s.toList

/-- Substring search over character lists. -/
def listContains : List Char → List Char → Bool
  | s, pat =>
    match s with
    | [] => pat.isPrefixOf ([] : List Char)
    | x :: rest => pat.isPrefixOf (x :: rest) || listContains rest pat

/-- Python substring test `pat in s`. -/
def strContains (s pat : String) : Bool := listContains s.toList pat.toList

/-- Python `str.removeprefix`. -/
def pyRemovePrefix (s p : String) : String :=
  if pyStartsWith s p then String.mk (s.toList.drop p.toList.length) else s

/-- Python `str.lower()` (per-character). -/
def pyLower (s : String) : String := String.mk (s.toList.map Char.toLower)

/-- Python `str.strip()`: whitespace removed from both ends. -/
def pyStrip (s : String) : String :=
  String.mk (((s.toList.dropWhile Char.isWhitespace).reverse.dropWhile
    Char.isWhitespace).reverse)

/-- `STEP_BY_STEP_PROCESS_MARKER` -/
def STEP_BY_STEP_PROCESS_MARKER : String := ">> "

/-- Whether `SLIDE_NUMBER_REGEX = re.compile(r"^slide[ ]+\d+:", re.IGNORECASE)`
matches at the start of the character list. -/
def slideNumPrefixMatch (cs : List Char) : Bool :=
  if (cs.take 5).map Char.toLower = "slide".toList then
    let rest := cs.drop 5
    let sp := rest.takeWhile (· = ' ')
    let rest2 := rest.dropWhile (· = ' ')
    let dg := rest2.takeWhile Char.isDigit
    let rest3 := rest2.dropWhile Char.isDigit
    !sp.isEmpty && !dg.isEmpty && rest3.head? == some ':'
  else false

/-- `remove_slide_number_from_heading`: if the heading starts with
`slide <n>:` (case-insensitive), drop everything up to the first `:` and
strip surrounding whitespace. -/
def remove_slide_number_from_heading (header : String) : String :=
  if slideNumPrefixMatch header.toList then
    let cs := header.toList
    let after := (cs.dropWhile (· ≠ ':')).drop 1
    pyStrip (String.mk after)
  else header

/-- `get_flat_list_of_contents`: flatten a (hierarchical) list of bullet
points into (text, level) pairs.  Strings are emitted at the current level,
sub-lists are recursed into at `level + 1`, dict items are ignored. -/
def get_flat_list_of_contents : List Item → Nat → List (String × Nat)
  | [], _ => []
  | .str s :: rest, level => (s, level) :: get_flat_list_of_contents rest level
  | .list xs :: rest, level =>
      get_flat_list_of_contents xs (level + 1) ++ get_flat_list_of_contents rest level
  | .dict _ _ :: rest, level => get_flat_list_of_contents rest level

/-- Number of leaf strings in a nested bullet structure. -/
def countLeaves : List Item → Nat
  | [] => 0
  | .str _ :: rest => countLeaves rest + 1
  | .list xs :: rest => countLeaves xs + countLeaves rest
  | .dict _ _ :: rest => countLeaves rest

/-- The leaf strings of a nested bullet structure in left-to-right
depth-first order. -/
def dfsLeaves : List Item → List String
  | [] => []
  | .str s :: rest => s :: dfsLeaves rest
  | .list xs :: rest => dfsLeaves xs ++ dfsLeaves rest
  | .dict _ _ :: rest => dfsLeaves rest

/-- Modelled from the spec (§4.1): `Leaf` emits one entry at `level`, `Group`
recurses into children at `level + 1`, empty groups emit nothing; dict nodes
are handled by the classifier, not here. -/
def specFlattenLevels : List Item → Nat → List (String × Nat)
  | [], _ => []
  | .str s :: rest, level => (s, level) :: specFlattenLevels rest level
  | .list xs :: rest, level =>
      specFlattenLevels xs (level + 1) ++ specFlattenLevels rest level
  | .dict _ _ :: rest, level => specFlattenLevels rest level

theorem get_flat_eq_spec (items : List Item) (level : Nat) :
    get_flat_list_of_contents items level = specFlattenLevels items level := by
  induction items, level using get_flat_list_of_contents.induct with
  | case1 _ => simp [get_flat_list_of_contents, specFlattenLevels]
  | case2 s rest level ih =>
      simp [get_flat_list_of_contents, specFlattenLevels, ih]
  | case3 xs rest level ih1 ih2 =>
      simp [get_flat_list_of_contents, specFlattenLevels, ih1, ih2]
  | case4 h b rest level ih =>
      simp [get_flat_list_of_contents, specFlattenLevels, ih]

theorem get_flat_map_fst (items : List Item) (level : Nat) :
    (get_flat_list_of_contents items level).map Prod.fst = dfsLeaves items := by
  induction items, level using get_flat_list_of_contents.induct with
  | case1 _ => simp [get_flat_list_of_contents, dfsLeaves]
  | case2 s rest level ih =>
      simp [get_flat_list_of_contents, dfsLeaves, ih]
  | case3 xs rest level ih1 ih2 =>
      simp [get_flat_list_of_contents, dfsLeaves, ih1, ih2]
  | case4 h b rest level ih =>
      simp [get_flat_list_of_contents, dfsLeaves, ih]

theorem get_flat_length (items : List Item) (level : Nat) :
    (get_flat_list_of_contents items level).length = countLeaves items := by
  induction items, level using get_flat_list_of_contents.induct with
  | case1 _ => simp [get_flat_list_of_contents, countLeaves]
  | case2 s rest level ih =>
      simp [get_flat_list_of_contents, countLeaves, ih]
  | case3 xs rest level ih1 ih2 =>
      simp [get_flat_list_of_contents, countLeaves, ih1, ih2, Nat.add_comm]
  | case4 h b rest level ih =>
      simp [get_flat_list_of_contents, countLeaves, ih]

theorem get_flat_level_shift (items : List Item) (level : Nat) :
    get_flat_list_of_contents items level =
      (get_flat_list_of_contents items 0).map (fun p => (p.1, p.2 + level)) := by
  have key : ∀ (its : List Item) (l l' : Nat),
      get_flat_list_of_contents its (l + l') =
        (get_flat_list_of_contents its l).map (fun p => (p.1, p.2 + l')) := by
    intro its l l'
    induction its, l using get_flat_list_of_contents.induct with
    | case1 _ => simp [get_flat_list_of_contents]
    | case2 s rest level ih =>
        simp [get_flat_list_of_contents, ih]
    | case3 xs rest level ih1 ih2 =>
        have : level + 1 + l' = level + l' + 1 := by omega
        simp [get_flat_list_of_contents, ← ih1, ← ih2, this]
    | case4 h b rest level ih =>
        simp [get_flat_list_of_contents, ih]
  have := key items 0 level
  simpa using this

/-- **C5**: for every nested bullet structure, `get_flat_list_of_contents`
returns the leaf strings in left-to-right depth-first order, its length is the
number of leaf strings, each leaf at relative depth `d` is paired with level
`d` shifted by the starting level, and empty sub-lists contribute nothing
(all captured by agreement with the spec-side `specFlattenLevels`). -/
theorem flatten_contents_correct (items : List Item) (level : Nat) :
    (get_flat_list_of_contents items level).map Prod.fst = dfsLeaves items ∧
    (get_flat_list_of_contents items level).length = countLeaves items ∧
    get_flat_list_of_contents items level =
      (get_flat_list_of_contents items 0).map (fun p => (p.1, p.2 + level)) ∧
    get_flat_list_of_contents items level = specFlattenLevels items level :=
  ⟨get_flat_map_fst items level, get_flat_length items level,
   get_flat_level_shift items level, get_flat_eq_spec items level⟩

/-- Lazy scan for the regex fragment `(.*?)cc` (with `c` being `*` for
`BOLD_ITALICS_PATTERN` or `]` for `ICONS_REGEX`): the smallest split
`cs = content ++ c :: c :: rest` whose `content` contains no newline
(Python `.` does not match a newline). -/
def lazyClose2 (c : Char) : List Char → Option (List Char × List Char)
  | [] => none
  | x :: rest =>
    if x = c ∧ rest.head? = some c then some ([], rest.tail)
    else if x = '\n' then none
    else (lazyClose2 c rest).map fun p => (x :: p.1, p.2)

theorem lazyClose2_length (c : Char) (cs : List Char) :
    ∀ pr, lazyClose2 c cs = some pr → pr.1.length + pr.2.length + 2 = cs.length := by
  induction cs with
  | nil => intro pr h; simp [lazyClose2] at h
  | cons x rest ih =>
    intro pr h
    rw [lazyClose2] at h
    by_cases h1 : x = c ∧ rest.head? = some c
    · rw [if_pos h1] at h
      cases h
      have hne : rest ≠ [] := by
        intro he; rw [he] at h1; simp at h1
      have hpos : 0 < rest.length := List.length_pos.mpr hne
      simp [List.length_tail]
      omega
    · rw [if_neg h1] at h
      by_cases h2 : x = '\n'
      · rw [if_pos h2] at h; simp at h
      · rw [if_neg h2] at h
        simp only [Option.map_eq_some'] at h
        obtain ⟨q, hq, hpr⟩ := h
        have := ih q hq
        subst hpr
        simp only [List.length_cons]
        omega

/-- Lazy scan for the regex fragment `(.*?)c` (single closing character, the
italic alternative `\*(.*?)\*`): the smallest split `cs = content ++ c :: rest`
whose `content` contains no newline. -/
def lazyClose1 (c : Char) : List Char → Option (List Char × List Char)
  | [] => none
  | x :: rest =>
    if x = c then some ([], rest)
    else if x = '\n' then none
    else (lazyClose1 c rest).map fun p => (x :: p.1, p.2)

theorem lazyClose1_length (c : Char) (cs : List Char) :
    ∀ pr, lazyClose1 c cs = some pr → pr.1.length + pr.2.length + 1 = cs.length := by
  induction cs with
  | nil => intro pr h; simp [lazyClose1] at h
  | cons x rest ih =>
    intro pr h
    rw [lazyClose1] at h
    by_cases h1 : x = c
    · rw [if_pos h1] at h
      cases h
      simp
    · rw [if_neg h1] at h
      by_cases h2 : x = '\n'
      · rw [if_pos h2] at h; simp at h
      · rw [if_neg h2] at h
        simp only [Option.map_eq_some'] at h
        obtain ⟨q, hq, hpr⟩ := h
        have := ih q hq
        subst hpr
        simp only [List.length_cons]
        omega

/-- Runs added to a paragraph by `format_text` (and `frame.text = s`). -/
inductive Run where
  | plain (t : String)
  | bold (t : String)
  | italic (t : String)
deriving Repr, DecidableEq

def runText : Run → String
  | .plain t => t
  | .bold t => t
  | .italic t => t

/-- Characters of the concatenation of run texts, style flags ignored. -/
def runsConcat (rs : List Run) : List Char :=
  (rs.map fun r => (runText r).toList).flatten

/-- The plain run emitted for accumulated gap text (`if start > last_index`
and the trailing `if last_index < len(text)`): no run for an empty gap. -/
def emitPlain (pending : List Char) : List Run :=
  if pending.isEmpty then [] else [.plain (String.mk pending)]

/-- The run emitted for a captured group: Python `if match.group(2):` /
`elif match.group(3):` adds no run when the captured text is empty. -/
def emitStyled (mk : String → Run) (content : List Char) : List Run :=
  if content.isEmpty then [] else [mk (String.mk content)]

/-- The bold alternative `\*\*(.*?)\*\*` attempted at the current position,
applied to the characters after the first `*`. -/
def boldMatch (rest : List Char) : Option (List Char × List Char) :=
  match rest with
  | x :: rest2 => if x = '*' then lazyClose2 '*' rest2 else none
  | [] => none

theorem boldMatch_length (rest : List Char) :
    ∀ pr, boldMatch rest = some pr → pr.2.length + 3 ≤ rest.length := by
  intro pr h
  match rest with
  | [] => simp [boldMatch] at h
  | x :: rest2 =>
    rw [boldMatch] at h
    by_cases hx : x = '*'
    · rw [if_pos hx] at h
      have := lazyClose2_length '*' rest2 pr h
      simp only [List.length_cons]
      omega
    · rw [if_neg hx] at h; simp at h

/-- The scan of `format_text`, fusing `BOLD_ITALICS_PATTERN.finditer` with
the run-emission loop: at each position try the bold alternative, then the
italic one; on a match flush the pending gap as a plain run and emit the
styled run; otherwise the character joins the gap.  The scan is written with
a fuel parameter for structural recursion; any fuel exceeding the input
length yields the same result, so the cutoff is never observed. -/
def fmtScanF (fuel : Nat) (pending cs : List Char) : List Run :=
  match fuel with
  | 0 => []
  | fuel + 1 =>
    match cs with
    | [] => emitPlain pending
    | x :: rest =>
      if x = '*' then
        match boldMatch rest with
        | some pr => emitPlain pending ++ emitStyled Run.bold pr.1 ++ fmtScanF fuel [] pr.2
        | none =>
          match lazyClose1 '*' rest with
          | some pr => emitPlain pending ++ emitStyled Run.italic pr.1 ++ fmtScanF fuel [] pr.2
          | none => fmtScanF fuel (pending ++ [x]) rest
      else fmtScanF fuel (pending ++ [x]) rest

/-- `format_text`: the runs the source adds to a paragraph for `text`. -/
def format_text (text : String) : List Run :=
  fmtScanF (text.toList.length + 1) [] text.toList

/-- Modelled from the spec (§4.2, §8): the input with the matched
non-overlapping `**`/`*` emphasis markers removed (each matched span is
replaced by its captured content); unterminated markers pass through
literally. -/
def stripEmphasisF (fuel : Nat) (cs : List Char) : List Char :=
  match fuel with
  | 0 => []
  | fuel + 1 =>
    match cs with
    | [] => []
    | x :: rest =>
      if x = '*' then
        match boldMatch rest with
        | some pr => pr.1 ++ stripEmphasisF fuel pr.2
        | none =>
          match lazyClose1 '*' rest with
          | some pr => pr.1 ++ stripEmphasisF fuel pr.2
          | none => x :: stripEmphasisF fuel rest
      else x :: stripEmphasisF fuel rest

/-- The input with matched emphasis markers removed (spec-side). -/
def stripEmphasis (cs : List Char) : List Char :=
  stripEmphasisF (cs.length + 1) cs

theorem runsConcat_append (a b : List Run) :
    runsConcat (a ++ b) = runsConcat a ++ runsConcat b := by
  simp [runsConcat]

theorem runsConcat_emitPlain (p : List Char) : runsConcat (emitPlain p) = p := by
  by_cases h : p.isEmpty
  · simp only [List.isEmpty_iff] at h
    simp [emitPlain, h, runsConcat]
  · simp [emitPlain, h, runsConcat, runText, String.toList]

theorem runsConcat_emitBold (c : List Char) :
    runsConcat (emitStyled Run.bold c) = c := by
  by_cases h : c.isEmpty
  · simp only [List.isEmpty_iff] at h
    simp [emitStyled, h, runsConcat]
  · simp [emitStyled, h, runsConcat, runText, String.toList]

theorem runsConcat_emitItalic (c : List Char) :
    runsConcat (emitStyled Run.italic c) = c := by
  by_cases h : c.isEmpty
  · simp only [List.isEmpty_iff] at h
    simp [emitStyled, h, runsConcat]
  · simp [emitStyled, h, runsConcat, runText, String.toList]

theorem fmtScanF_concat :
    ∀ (fuel : Nat) (pending cs : List Char), cs.length < fuel →
      runsConcat (fmtScanF fuel pending cs) = pending ++ stripEmphasisF fuel cs := by
  intro fuel
  induction fuel with
  | zero => intro pending cs h; omega
  | succ fuel ih =>
    intro pending cs h
    match cs with
    | [] =>
      simp only [fmtScanF, stripEmphasisF, runsConcat_emitPlain, List.append_nil]
    | x :: rest =>
      simp only [fmtScanF, stripEmphasisF]
      simp only [List.length_cons] at h
      by_cases hx : x = '*'
      · rw [if_pos hx, if_pos hx]
        cases hbm : boldMatch rest with
        | some pr =>
          have hlen := boldMatch_length rest pr hbm
          simp only [hbm]
          rw [runsConcat_append, runsConcat_append, runsConcat_emitPlain,
            runsConcat_emitBold, ih [] pr.2 (by omega)]
          simp
        | none =>
          cases hlc : lazyClose1 '*' rest with
          | some pr =>
            have hlen := lazyClose1_length '*' rest pr hlc
            simp only [hbm, hlc]
            rw [runsConcat_append, runsConcat_append, runsConcat_emitPlain,
              runsConcat_emitItalic, ih [] pr.2 (by omega)]
            simp
          | none =>
            simp only [hbm, hlc]
            rw [ih (pending ++ [x]) rest (by omega)]
            simp
      · rw [if_neg hx, if_neg hx]
        rw [ih (pending ++ [x]) rest (by omega)]
        simp

/-- **C6**: for every input string the concatenation of the run texts that
`format_text` produces (style flags ignored) equals the input with the
matched `**`/`*` emphasis markers removed; unterminated markers pass through
literally (kept by the total spec-side scanner `stripEmphasis`) and no error
is raised (`format_text` is total). -/
theorem format_text_concat_strips_markers (text : String) :
    runsConcat (format_text text) = stripEmphasis text.toList := by
  rw [format_text, stripEmphasis, fmtScanF_concat (text.toList.length + 1) [] text.toList (by omega)]
  simp

/-- Python `\s` whitespace characters (as matched by `re`). -/
def isPySpace (c : Char) : Bool :=
  c = ' ' || c = '\t' || c = '\n' || c = '\r' || c = '\x0b' || c = '\x0c'

/-- `ICONS_REGEX.search` (`\[\[(.*?)\]\]\s*(.*)`): scan for the earliest
position with `[[`, lazily match the icon name up to `]]` (no newline
inside), then skip whitespace and capture the caption up to end of line.
Returns `none` when no match exists (Python then raises `AttributeError`
on `match.group`). -/
def iconSearch : List Char → Option (String × String)
  | [] => none
  | x :: rest =>
    if x = '[' ∧ rest.head? = some '[' then
      match lazyClose2 ']' rest.tail with
      | some pr =>
          some (String.mk pr.1, String.mk ((pr.2.dropWhile isPySpace).takeWhile (· ≠ '\n')))
      | none => iconSearch rest
    else iconSearch rest

/-- A paragraph of a text frame: indentation level and formatting runs. -/
structure Paragraph where
  level : Nat := 0
  runs : List Run := []
deriving Repr, DecidableEq

/-- A text frame; a fresh frame has one empty paragraph (`paragraphs[0]`). -/
structure TextFrame where
  paragraphs : List Paragraph := [{}]
deriving Repr, DecidableEq

def freshFrame : TextFrame := ⟨[{}]⟩

/-- python-pptx `text_frame.text = s`: content replaced by one paragraph
holding the text as a single run. -/
def frameSetText (s : String) : TextFrame := ⟨[⟨0, [Run.plain s]⟩]⟩

/-- `add_bulleted_items`: the first item is formatted into `paragraphs[0]`
(whose level is left untouched), every further item becomes a new paragraph
at the item's level; the `'>> '` marker prefix is stripped before
formatting. -/
def add_bulleted_items (tf : TextFrame) (flat_items_list : List (String × Nat)) : TextFrame :=
  flat_items_list.enum.foldl
    (fun acc p =>
      let txt := format_text (pyRemovePrefix p.2.1 STEP_BY_STEP_PROCESS_MARKER)
      if p.1 = 0 then
        { paragraphs :=
            match acc.paragraphs with
            | [] => []
            | q :: qs => { q with runs := q.runs ++ txt } :: qs }
      else
        { paragraphs := acc.paragraphs ++ [{ level := p.2.2, runs := txt }] })
    tf

/-- `get_slide_placeholders`: (index, lower-cased name) for all placeholders
except the first (title); `pop(0)` raises `IndexError` on an empty list. -/
def get_slide_placeholders (phs : List (Nat × String)) : Except PErr (List (Nat × String)) :=
  match phs.map (fun p => (p.1, pyLower p.2)) with
  | [] => .error .indexError
  | _ :: rest => .ok rest

/-- `shapes.placeholders[i]` succeeds iff some placeholder has index `i`. -/
def hasIdx (phs : List (Nat × String)) (i : Nat) : Bool :=
  phs.any (fun p => p.1 = i)

/-- The double-column fallback loops: the first placeholder whose name
contains `key` becomes the left role, the second the right role. -/
def findTwo (key : String) (phs : List (Nat × String)) : Option Nat × Option Nat :=
  phs.foldl
    (fun acc p =>
      if strContains p.2 key then
        match acc with
        | (none, r) => (some p.1, r)
        | (some l, none) => (some l, some p.1)
        | _ => acc
      else acc)
    (none, none)

/-- The picture-layout fallback loops (`for idx, name ... if key in name:
col = placeholders[idx]` without `break`): the last matching placeholder
wins. -/
def findLast (key : String) (phs : List (Nat × String)) : Option Nat :=
  phs.foldl (fun acc p => if strContains p.2 key then some p.1 else acc) none

/-- A rendered content slide.  `abandoned` records a slide that was added to
the presentation but left partially built because an exception was raised
mid-handler (the `except` in the assembler keeps it and moves on); its
partially-set contents are not tracked. -/
inductive ContentSlide where
  | abandoned
  | iconGrid (heading : String) (iconsTexts : List (String × String))
  | tableSlide (heading : String) (grid : List (List (String × Bool)))
  | doubleCol (heading : String) (leftHeading rightHeading : Option String)
      (leftFrame rightFrame : TextFrame) (callout : Option (List Run))
  | stepsH (heading : String) (steps : List (List Run))
  | stepsV (heading : String) (steps : List (List Run))
  | bullets (heading : String) (body : TextFrame) (callout : Option (List Run))
  | bulletsFgImage (heading : String) (body : TextFrame) (pictureAdded : Bool)
  | bulletsBgImage (heading : String) (body : TextFrame) (pictureAdded : Bool)
deriving Repr, DecidableEq

deriving instance DecidableEq for Except

/-- Result of one handler call: the slide it appended to the presentation
(if any) and its Python return value or raised exception. -/
structure HOut where
  added : Option ContentSlide
  result : Except PErr Bool
deriving Repr, DecidableEq

/-- `_handle_key_message`: the rounded-rectangle callout added near the
slide's bottom-center when `key_message` is present and truthy. -/
def _handle_key_message (slide_json : SlideJson) : Option (List Run) :=
  match slide_json.key_message with
  | some km => if km ≠ "" then some (format_text km) else none
  | none => none

/-- The icon-grid acceptance loop: every item must be a string starting with
`ICON_BEGINNING_MARKER` (`'[['`). -/
def isIconStr : Item → Bool
  | .str s => pyStartsWith s "[["
  | _ => false

/-- `[ICONS_REGEX.search(item) for item in items]` followed by
`(match.group(1), match.group(2))`: `none` when any search fails. -/
def parseIcons (items : List Item) : Option (List (String × String)) :=
  items.mapM fun it =>
    match it with
    | .str s => iconSearch s.toList
    | _ => none

/-- `_handle_icons_ideas` (layout 1 of the classifier).  The icon file
lookup and the `find_icons` fallback matcher are external collaborators;
the rendered slide records the parsed (icon, caption) pairs. -/
def _handle_icons_ideas (slide_json : SlideJson) : HOut :=
  match slide_json.bullet_points with
  | some items =>
    if items.isEmpty then ⟨none, .ok false⟩
    else if items.all isIconStr then
      match slide_json.heading with
      | none => ⟨some .abandoned, .error (.keyError "heading")⟩
      | some hd =>
        match parseIcons items with
        | none => ⟨some .abandoned, .error (.attributeError "NoneType has no attribute group")⟩
        | some its => ⟨some (.iconGrid (remove_slide_number_from_heading hd) its), .ok true⟩
    else ⟨none, .ok false⟩
  | none => ⟨none, .ok false⟩

/-- Python truthiness of the `table` dict value: a dict is truthy iff it has
at least one key. -/
def tableTruthy (t : TableJson) : Bool := t.headers.isSome || t.rows.isSome

/-- The header loop of `_handle_table`
(`for col_idx, header_text in enumerate(headers): cell(0, col_idx) ...`):
successive cells of the blank header row get the header text and bold. -/
def fillHeaderRow : List String → List (String × Bool) → List (String × Bool)
  | [], blanks => blanks
  | h :: hs, blanks =>
    match blanks with
    | [] => []
    | _ :: bs => (h, true) :: fillHeaderRow hs bs

/-- One data-row loop of `_handle_table`
(`for col_idx, cell_text in enumerate(row_data): cell(row_idx, col_idx) ...`):
successive cells (indices 0, 1, ...) of a blank row get the texts, keeping the
cell's bold flag; a text beyond the table width raises `IndexError` at
`table.cell`. -/
def fillRowLoop : List String → List (String × Bool) → Except PErr (List (String × Bool))
  | [], blanks => .ok blanks
  | t :: ts, blanks =>
    match blanks with
    | [] => .error .indexError
    | b :: bs => (fillRowLoop ts bs).map (fun filled => (t, b.2) :: filled)

/-- The cell-filling loops of `_handle_table` over an
`add_table(len(rows) + 1, len(headers))` grid (all cells start `("", plain)`):
row 0 gets the header texts in bold, rows 1.. get the row texts in order.
(`add_table` itself is modelled as total.) -/
def fillGrid (headers : List String) (rows : List (List String)) :
    Except PErr (List (List (String × Bool))) :=
  let blankRow : List (String × Bool) := List.replicate headers.length ("", false)
  match rows.mapM (fun r => fillRowLoop r blankRow) with
  | .ok dataRows => .ok (fillHeaderRow headers blankRow :: dataRows)
  | .error e => .error e

/-- `_handle_table` (layout 2 of the classifier): accepts iff the `table`
key is present with a truthy value; headers and rows default to `[]`. -/
def _handle_table (layout1 : List (Nat × String)) (slide_json : SlideJson) : HOut :=
  match slide_json.table with
  | none => ⟨none, .ok false⟩
  | some t =>
    if tableTruthy t then
      let headers := t.headers.getD []
      let rows := t.rows.getD []
      match slide_json.heading with
      | none => ⟨some .abandoned, .error (.keyError "heading")⟩
      | some hd =>
        if hasIdx layout1 1 then
          match fillGrid headers rows with
          | .ok grid => ⟨some (.tableSlide (remove_slide_number_from_heading hd) grid), .ok true⟩
          | .error e => ⟨some .abandoned, .error e⟩
        else ⟨some .abandoned, .error (.keyError "1")⟩
    else ⟨none, .ok false⟩

/-- Role resolution shared by the double-column layout: fast path by the
standard indices `i`, `j`, else enumerate non-title placeholders and assign
the first/second whose name contains `key`. -/
def resolvePair (layout : List (Nat × String)) (i j : Nat) (key : String) :
    Except PErr (Option Nat × Option Nat) :=
  if hasIdx layout i ∧ hasIdx layout j then .ok (some i, some j)
  else (get_slide_placeholders layout).map (findTwo key)

/-- One column of the double-column layout: set the heading placeholder if
both the heading key and the placeholder exist; when the heading placeholder
is missing, fold the column heading into the body frame's first line
(raising `KeyError` if the column dict has no `heading`); then add the
flattened bullets. -/
def buildColumn (phHeading : Option Nat) (hOpt : Option String)
    (bpOpt : Option (List Item)) : Except PErr (Option String × TextFrame) :=
  let headingText := if hOpt.isSome ∧ phHeading.isSome then hOpt else none
  match bpOpt with
  | some bs =>
    let flat := get_flat_list_of_contents bs 0
    match phHeading with
    | some _ => .ok (headingText, add_bulleted_items freshFrame flat)
    | none =>
      match hOpt with
      | some h => .ok (none, add_bulleted_items (frameSetText h) flat)
      | none => .error (.keyError "heading")
  | none => .ok (headingText, freshFrame)

/-- `_handle_double_col_layout` (layout 3 of the classifier): accepts iff
`bullet_points` is exactly two dicts.  Unresolved content placeholders make
`left_col.text_frame` raise `AttributeError`; unresolved heading
placeholders degrade into the body frame. -/
def _handle_double_col_layout (layout4 : List (Nat × String)) (slide_json : SlideJson) : HOut :=
  match slide_json.bullet_points with
  | some bps =>
    if bps.isEmpty then ⟨none, .ok false⟩
    else
      match bps with
      | [.dict h0 b0, .dict h1 b1] =>
        match slide_json.heading with
        | none => ⟨some .abandoned, .error (.keyError "heading")⟩
        | some hd =>
          match resolvePair layout4 1 3 "text placeholder" with
          | .error e => ⟨some .abandoned, .error e⟩
          | .ok (lh, rh) =>
            match resolvePair layout4 2 4 "content placeholder" with
            | .error e => ⟨some .abandoned, .error e⟩
            | .ok (lc, rc) =>
              if lc.isNone ∨ rc.isNone then
                ⟨some .abandoned, .error (.attributeError "NoneType has no attribute text_frame")⟩
              else
                match buildColumn lh h0 b0 with
                | .error e => ⟨some .abandoned, .error e⟩
                | .ok (lht, lf) =>
                  match buildColumn rh h1 b1 with
                  | .error e => ⟨some .abandoned, .error e⟩
                  | .ok (rht, rf) =>
                    ⟨some (.doubleCol (remove_slide_number_from_heading hd) lht rht lf rf
                        (_handle_key_message slide_json)), .ok true⟩
      | _ => ⟨none, .ok false⟩
  | none => ⟨none, .ok false⟩

/-- The heading waiver of the step-process threshold. -/
def stepWaiver (header : String) : Bool :=
  strContains header "step-by-step" || strContains header "step by step"

/-- The acceptance loop of `_handle_step_by_step_process`: `none` when some
item is not a string (Python returns `False`), else the number of steps not
starting with the `'>> '` marker. -/
def countNoMarker : List Item → Option Nat
  | [] => some 0
  | .str s :: rest =>
      (countNoMarker rest).map
        (fun n => if pyStartsWith s STEP_BY_STEP_PROCESS_MARKER then n else n + 1)
  | _ :: _ => none

def stepTexts : List Item → List String
  | [] => []
  | .str s :: rest => s :: stepTexts rest
  | _ :: rest => stepTexts rest

/-- `_handle_step_by_step_process` (layout 4 of the classifier).  The float
test `no_marker_count / n_steps > 0.25` is modelled as the exact comparison
`4 * no_marker_count > n_steps` (equivalent for any list of realisable
length, as `0.25` is exactly representable).  Note the final `return True`
sits outside the `if`, so a slide with a missing or falsy `bullet_points`
returns `True` without adding anything. -/
def _handle_step_by_step_process (slide_json : SlideJson) : HOut :=
  match slide_json.bullet_points with
  | some steps =>
    if steps.isEmpty then ⟨none, .ok true⟩
    else
      match countNoMarker steps with
      | none => ⟨none, .ok false⟩
      | some nm =>
        match slide_json.heading with
        | none => ⟨none, .error (.keyError "heading")⟩
        | some hd =>
          let n := steps.length
          if 4 * nm > n ∧ ¬ stepWaiver (pyLower hd) then ⟨none, .ok false⟩
          else if n < 3 ∨ n > 6 then ⟨none, .ok false⟩
          else
            let runsList := (stepTexts steps).map
              (fun s => format_text (pyRemovePrefix s STEP_BY_STEP_PROCESS_MARKER))
            if n ≤ 4 then
              ⟨some (.stepsH (remove_slide_number_from_heading hd) runsList), .ok true⟩
            else
              ⟨some (.stepsV (remove_slide_number_from_heading hd) runsList), .ok true⟩
  | none => ⟨none, .ok true⟩

/-- The two `random.random()` draws of `_handle_default_display`, abstracted
as an oracle: no decoration, foreground picture, or background picture. -/
inductive DecorDecision where
  | noImage | fgImage | bgImage
deriving Repr, DecidableEq

/-- Body placeholder of layout 1: `placeholders[1]`, else the first entry of
`get_slide_placeholders` (raising `IndexError` when there is none). -/
def resolveBodyPlaceholder (layout1 : List (Nat × String)) : Except PErr Nat :=
  if hasIdx layout1 1 then .ok 1
  else
    match get_slide_placeholders layout1 with
    | .error e => .error e
    | .ok [] => .error .indexError
    | .ok (p :: _) => .ok p.1

/-- The text-only tail of `_handle_default_display`. -/
def defaultTextOnlySlide (layout1 : List (Nat × String)) (slide_json : SlideJson) : HOut :=
  match resolveBodyPlaceholder layout1 with
  | .error e => ⟨some .abandoned, .error e⟩
  | .ok _ =>
    match slide_json.heading with
    | none => ⟨some .abandoned, .error (.keyError "heading")⟩
    | some hd =>
      match slide_json.bullet_points with
      | none => ⟨some .abandoned, .error (.keyError "bullet_points")⟩
      | some bps =>
        let flat := get_flat_list_of_contents bps 0
        ⟨some (.bullets (remove_slide_number_from_heading hd)
            (add_bulleted_items freshFrame flat) (_handle_key_message slide_json)), .ok true⟩

/-- `_handle_display_image__in_foreground`: picture-with-caption layout.
The Pexels search is the oracle `pexels`; any failure inside the `try` is
caught, so a resolved-to-`None` picture placeholder only suppresses the
picture, while a resolved-to-`None` text placeholder raises
`AttributeError` at `add_bulleted_items`.  No key-message callout is
added on this path. -/
def _handle_display_image__in_foreground (layout8 : List (Nat × String))
    (pexels : Option (String × String)) (slide_json : SlideJson) : HOut :=
  match slide_json.img_keywords with
  | none => ⟨none, .error (.keyError "img_keywords")⟩
  | some kw0 =>
    let img_keywords := pyStrip kw0
    match slide_json.heading with
    | none => ⟨some .abandoned, .error (.keyError "heading")⟩
    | some hd =>
      match (if hasIdx layout8 1 then .ok (some 1)
             else (get_slide_placeholders layout8).map (findLast "picture") :
              Except PErr (Option Nat)) with
      | .error e => ⟨some .abandoned, .error e⟩
      | .ok pic_col =>
        match (if hasIdx layout8 2 then .ok (some 2)
               else (get_slide_placeholders layout8).map (findLast "content") :
                Except PErr (Option Nat)) with
        | .error e => ⟨some .abandoned, .error e⟩
        | .ok text_col =>
          match slide_json.bullet_points with
          | none => ⟨some .abandoned, .error (.keyError "bullet_points")⟩
          | some bps =>
            if text_col.isNone then
              ⟨some .abandoned, .error (.attributeError "NoneType has no attribute text_frame")⟩
            else
              let body := add_bulleted_items freshFrame (get_flat_list_of_contents bps 0)
              if img_keywords = "" then
                ⟨some (.bulletsFgImage (remove_slide_number_from_heading hd) body false), .ok true⟩
              else
                ⟨some (.bulletsFgImage (remove_slide_number_from_heading hd) body
                    (pexels.isSome && pic_col.isSome)), .ok true⟩

/-- `_handle_display_image__in_background`: bullet layout with a full-bleed
half-transparent background picture; all picture work is inside `try`
blocks, so the oracle only decides whether a picture gets added.  No
key-message callout is added on this path. -/
def _handle_display_image__in_background (layout1 : List (Nat × String))
    (pexels : Option (String × String)) (slide_json : SlideJson) : HOut :=
  match slide_json.img_keywords with
  | none => ⟨none, .error (.keyError "img_keywords")⟩
  | some kw0 =>
    let img_keywords := pyStrip kw0
    match resolveBodyPlaceholder layout1 with
    | .error e => ⟨some .abandoned, .error e⟩
    | .ok _ =>
      match slide_json.heading with
      | none => ⟨some .abandoned, .error (.keyError "heading")⟩
      | some hd =>
        match slide_json.bullet_points with
        | none => ⟨some .abandoned, .error (.keyError "bullet_points")⟩
        | some bps =>
          let body := add_bulleted_items freshFrame (get_flat_list_of_contents bps 0)
          if img_keywords = "" then
            ⟨some (.bulletsBgImage (remove_slide_number_from_heading hd) body false), .ok true⟩
          else
            ⟨some (.bulletsBgImage (remove_slide_number_from_heading hd) body pexels.isSome),
              .ok true⟩

/-- `_handle_default_display` (layout 5 of the classifier): when the
`img_keywords` key is present, the RNG (abstracted by `decor`) may pick a
foreground or background picture variant — both always return `True` (or
raise), so the text-only path runs exactly when no variant was tried. -/
def _handle_default_display (layout1 layout8 : List (Nat × String))
    (decor : DecorDecision) (pexels : Option (String × String))
    (slide_json : SlideJson) : HOut :=
  match slide_json.img_keywords with
  | some _ =>
    match decor with
    | .fgImage => _handle_display_image__in_foreground layout8 pexels slide_json
    | .bgImage => _handle_display_image__in_background layout1 pexels slide_json
    | .noImage => defaultTextOnlySlide layout1 slide_json
  | none => defaultTextOnlySlide layout1 slide_json

/-- The placeholder lists of the slide layouts used by the handlers. -/
structure Templates where
  layout1 : List (Nat × String)
  layout4 : List (Nat × String)
  layout8 : List (Nat × String)

/-- The per-slide dispatch of `generate_powerpoint_presentation`: handlers
run in the fixed order icon-grid, table, double-column, step-process,
default; the first one not returning `False` ends the chain (an exception
also ends it and is caught by the caller). -/
def processSlide (tpl : Templates) (decor : DecorDecision)
    (pexels : Option (String × String)) (slide_json : SlideJson) : HOut :=
  let r1 := _handle_icons_ideas slide_json
  match r1.result with
  | .ok false =>
    let r2 := _handle_table tpl.layout1 slide_json
    match r2.result with
    | .ok false =>
      let r3 := _handle_double_col_layout tpl.layout4 slide_json
      match r3.result with
      | .ok false =>
        let r4 := _handle_step_by_step_process slide_json
        match r4.result with
        | .ok false => _handle_default_display tpl.layout1 tpl.layout8 decor pexels slide_json
        | _ => r4
      | _ => r3
    | _ => r2
  | _ => r1

/-- A slide of the produced presentation. -/
inductive DeckSlide where
  | titleSlide (title subtitle : String)
  | content (c : ContentSlide)
  | closing (text : String)
deriving Repr, DecidableEq

/-- Outcome of a completed generation: the slide list, the returned header
list and the fact that `presentation.save` ran. -/
structure GenResult where
  deck : List DeckSlide
  headers : List String
  saved : Bool
deriving Repr, DecidableEq

/-- Template and per-slide oracles (RNG draws, Pexels results). -/
structure Env where
  tpl : Templates
  decorOf : Nat → DecorDecision
  pexelsOf : Nat → Option (String × String)

/-- The content loop of `generate_powerpoint_presentation`: each slide is
processed inside `try`; on an exception the already-added (partial) slide
is kept, the error is logged and the loop continues. -/
def genLoop (env : Env) : Nat → List SlideJson → List DeckSlide
  | _, [] => []
  | i, s :: rest =>
    let r := processSlide env.tpl (env.decorOf i) (env.pexelsOf i) s
    (r.added.toList.map DeckSlide.content) ++ genLoop env (i + 1) rest

/-- The top-level parsed JSON dict. -/
structure ParsedData where
  title : Option String := none
  slides : Option (List SlideJson) := none

/-- `generate_powerpoint_presentation`: title slide from `title` (raising
`KeyError` when missing, as does a missing `slides`), the content loop,
the closing 'Thank you!' slide, save, and the returned header list
(`all_headers` is never appended to after its initialisation). -/
def generate_powerpoint_presentation (env : Env) (parsed_data : ParsedData) :
    Except PErr GenResult := do
  let title ← getKey parsed_data.title "title"
  let slides ← getKey parsed_data.slides "slides"
  let body := genLoop env 0 slides
  return { deck := .titleSlide title "by Myself and SlideDeck AI :)" ::
             (body ++ [.closing "Thank you!"])
         , headers := [title]
         , saved := true }

/-- Placeholder lists of the default (unedited) template layouts. -/
def stdLayout1 : List (Nat × String) := [(0, "Title 1"), (1, "Content Placeholder 2")]

def stdLayout4 : List (Nat × String) :=
  [(0, "Title 1"), (1, "Text Placeholder 2"), (2, "Content Placeholder 3"),
   (3, "Text Placeholder 4"), (4, "Content Placeholder 5")]

def stdLayout8 : List (Nat × String) :=
  [(0, "Title 1"), (1, "Picture Placeholder 2"), (2, "Text Placeholder 3")]

def stdTemplates : Templates := ⟨stdLayout1, stdLayout4, stdLayout8⟩

def stdEnv : Env := ⟨stdTemplates, fun _ => .noImage, fun _ => none⟩

/-- Whether an added slide is a step-by-step process rendering. -/
def isStepSlide : Option ContentSlide → Bool
  | some (.stepsH _ _) => true
  | some (.stepsV _ _) => true
  | _ => false

/-- **C10**: a slide whose `bullet_points` key is absent or maps to a falsy
(empty) value — and that the table handler also declines — is declined by the
icon and double-column handlers, while `_handle_step_by_step_process` returns
`True` without adding any slide, so the default handler is never invoked and
no content slide is produced for this SlideSpec. -/
theorem missing_bullets_swallowed_by_step_handler (tpl : Templates)
    (decor : DecorDecision) (pexels : Option (String × String)) (s : SlideJson)
    (hbp : s.bullet_points = none ∨ s.bullet_points = some [])
    (htb : s.table = none ∨ ∃ t, s.table = some t ∧ tableTruthy t = false) :
    _handle_step_by_step_process s = ⟨none, .ok true⟩ ∧
    processSlide tpl decor pexels s = ⟨none, .ok true⟩ := by
  have hicon : _handle_icons_ideas s = ⟨none, .ok false⟩ := by
    rcases hbp with h | h <;> simp [_handle_icons_ideas, h]
  have htab : _handle_table tpl.layout1 s = ⟨none, .ok false⟩ := by
    rcases htb with h | ⟨t, ht, htf⟩
    · simp [_handle_table, h]
    · simp [_handle_table, ht, htf]
  have hdc : _handle_double_col_layout tpl.layout4 s = ⟨none, .ok false⟩ := by
    rcases hbp with h | h <;> simp [_handle_double_col_layout, h]
  have hstep : _handle_step_by_step_process s = ⟨none, .ok true⟩ := by
    rcases hbp with h | h <;> simp [_handle_step_by_step_process, h]
  refine ⟨hstep, ?_⟩
  simp [processSlide, hicon, htab, hdc, hstep]

theorem missing_bullets_swallowed_witness :
    processSlide stdTemplates .noImage none {} = ⟨none, .ok true⟩ ∧
    _handle_step_by_step_process {} = ⟨none, .ok true⟩ :=
  ⟨(missing_bullets_swallowed_by_step_handler stdTemplates .noImage none {}
      (Or.inl rfl) (Or.inl rfl)).2,
   (missing_bullets_swallowed_by_step_handler stdTemplates .noImage none {}
      (Or.inl rfl) (Or.inl rfl)).1⟩

theorem countNoMarker_map_str (strs : List String) :
    countNoMarker (strs.map Item.str) =
      some (strs.filter fun s => !(pyStartsWith s STEP_BY_STEP_PROCESS_MARKER)).length := by
  induction strs with
  | nil => rfl
  | cons s rest ih =>
    by_cases h : pyStartsWith s STEP_BY_STEP_PROCESS_MARKER <;>
      simp [countNoMarker, ih, List.filter_cons, h]

/-- **C2**: a slide whose `bullet_points` is a flat list of plain strings (and
whose heading is present) renders as the step-by-step process layout iff
3 ≤ n ≤ 6 and at most 25% of the strings fail to start with `'>> '`, the
threshold being waived when the lower-cased heading contains
`'step-by-step'`/`'step by step'`.  In particular 2-step and 7-step lists
never render as a process, while 3- and 6-step lists with ≥ 75% compliance
do. -/
theorem step_process_boundary (heading : String) (strs : List String)
    (km ik : Option String) (tb : Option TableJson) :
    isStepSlide (_handle_step_by_step_process
        { heading := some heading, bullet_points := some (strs.map Item.str),
          key_message := km, img_keywords := ik, table := tb }).added = true ↔
      3 ≤ strs.length ∧ strs.length ≤ 6 ∧
        (4 * (strs.filter fun s => !(pyStartsWith s STEP_BY_STEP_PROCESS_MARKER)).length
            ≤ strs.length ∨
          stepWaiver (pyLower heading) = true) := by
  cases strs with
  | nil => simp [_handle_step_by_step_process, isStepSlide]
  | cons s0 rest =>
    simp only [_handle_step_by_step_process, List.map_cons, List.isEmpty_cons,
      Bool.false_eq_true, if_false]
    rw [show (Item.str s0 :: List.map Item.str rest) = List.map Item.str (s0 :: rest) from rfl]
    simp only [countNoMarker_map_str, List.length_map]
    set nm := ((s0 :: rest).filter fun s => !(pyStartsWith s STEP_BY_STEP_PROCESS_MARKER)).length
      with hnm
    set n := (s0 :: rest).length with hn
    by_cases hthr : 4 * nm > n ∧ ¬ stepWaiver (pyLower heading) = true
    · rw [if_pos hthr]
      simp only [isStepSlide]
      constructor
      · intro h; cases h
      · rintro ⟨-, -, h3⟩
        rcases h3 with h3 | h3
        · omega
        · exact absurd h3 hthr.2
    · rw [if_neg hthr]
      by_cases hrange : n < 3 ∨ n > 6
      · rw [if_pos hrange]
        simp only [isStepSlide]
        constructor
        · intro h; cases h
        · rintro ⟨h1, h2, -⟩; omega
      · rw [if_neg hrange]
        push_neg at hrange
        have hconcl : 3 ≤ n ∧ n ≤ 6 ∧
            (4 * nm ≤ n ∨ stepWaiver (pyLower heading) = true) := by
          refine ⟨hrange.1, hrange.2, ?_⟩
          by_cases hw : stepWaiver (pyLower heading) = true
          · exact Or.inr hw
          · left
            by_contra hc
            exact hthr ⟨by omega, hw⟩
        by_cases hn4 : n ≤ 4
        · rw [if_pos hn4]; simpa [isStepSlide] using hconcl
        · rw [if_neg hn4]; simpa [isStepSlide] using hconcl

/-- Claim-side closed form of the rendered table grid: bold header row, then
per data row its texts in order followed by untouched blank cells. -/
def specGrid (headers : List String) (rows : List (List String)) :
    List (List (String × Bool)) :=
  (headers.map fun h => (h, true)) ::
    rows.map fun r =>
      (r.map fun t => (t, false)) ++ List.replicate (headers.length - r.length) ("", false)

theorem fillHeaderRow_replicate (headers : List String) :
    ∀ k, headers.length ≤ k →
      fillHeaderRow headers (List.replicate k ("", false)) =
        (headers.map fun h => (h, true)) ++ List.replicate (k - headers.length) ("", false) := by
  induction headers with
  | nil => intro k hk; simp [fillHeaderRow]
  | cons h hs ih =>
    intro k hk
    match k with
    | 0 => simp at hk
    | k + 1 =>
      rw [List.replicate_succ, fillHeaderRow]
      simp only [List.length_cons] at hk
      rw [ih k (by omega)]
      simp [Nat.succ_sub_succ]

theorem fillRowLoop_replicate (r : List String) :
    ∀ k, r.length ≤ k →
      fillRowLoop r (List.replicate k ("", false)) =
        .ok ((r.map fun t => (t, false)) ++ List.replicate (k - r.length) ("", false)) := by
  induction r with
  | nil => intro k hk; simp [fillRowLoop]
  | cons t ts ih =>
    intro k hk
    match k with
    | 0 => simp at hk
    | k + 1 =>
      rw [List.replicate_succ, fillRowLoop]
      simp only [List.length_cons] at hk
      rw [ih k (by omega)]
      simp [Except.map, Nat.succ_sub_succ]

theorem mapM_except_ok {α β : Type} (f : α → Except PErr β) (g : α → β) :
    ∀ l : List α, (∀ a ∈ l, f a = .ok (g a)) → l.mapM f = .ok (l.map g) := by
  intro l
  induction l with
  | nil => intro _; rfl
  | cons a rest ih =>
    intro h
    rw [List.mapM_cons, h a (by simp), ih (fun b hb => h b (by simp [hb]))]
    rfl

theorem fillGrid_ok (headers : List String) (rows : List (List String))
    (hfit : ∀ r ∈ rows, r.length ≤ headers.length) :
    fillGrid headers rows = .ok (specGrid headers rows) := by
  simp only [fillGrid,
    mapM_except_ok _
      (fun r => (r.map fun t => (t, false)) ++
        List.replicate (headers.length - r.length) ("", false))
      rows (fun r hr => fillRowLoop_replicate r headers.length (hfit r hr))]
  rw [fillHeaderRow_replicate headers headers.length (by omega)]
  simp [specGrid]

def c8Slide : SlideJson :=
  { heading := some "H", table := some { headers := some ["A", "B"], rows := some [] } }

/-- **C8 counterexample**: a slide whose `table` has non-empty headers but
EMPTY rows still renders as the table layout (a header-only table) and the
handler returns `True` — the code only checks `'table' in slide_json and
slide_json['table']` (dict truthiness), never that rows are non-empty, so
the claimed iff is false. -/
theorem table_renders_despite_empty_rows :
    _handle_table stdLayout1 c8Slide =
      ⟨some (.tableSlide "H" [[("A", true), ("B", true)]]), .ok true⟩ ∧
    c8Slide.table.map TableJson.rows = some (some []) := by
  constructor
  · decide
  · rfl

/-- **C8 amended**: provided the heading key is present and every row is no
longer than the header list, a slide renders as the table layout iff its
`table` key is present with a truthy (non-empty dict) value — headers and
rows default to `[]` when the corresponding key is absent.  The rendered
grid has `(rows + 1)` rows and `headers` columns: row 0 holds the header
texts in bold, and row `i + 1` holds the texts of row `i` in order (cells
beyond a row's length stay blank). -/
theorem table_layout_characterisation (s : SlideJson) (hd : String)
    (hh : s.heading = some hd) :
    (s.table = none → _handle_table stdLayout1 s = ⟨none, .ok false⟩) ∧
    (∀ t, s.table = some t → tableTruthy t = false →
        _handle_table stdLayout1 s = ⟨none, .ok false⟩) ∧
    (∀ t, s.table = some t → tableTruthy t = true →
        (∀ r ∈ t.rows.getD [], r.length ≤ (t.headers.getD []).length) →
        _handle_table stdLayout1 s =
          ⟨some (.tableSlide (remove_slide_number_from_heading hd)
              (specGrid (t.headers.getD []) (t.rows.getD []))), .ok true⟩) := by
  refine ⟨?_, ?_, ?_⟩
  · intro ht; simp [_handle_table, ht]
  · intro t ht htf; simp [_handle_table, ht, htf]
  · intro t ht htt hfit
    simp only [_handle_table, ht, htt, hh, if_true,
      show hasIdx stdLayout1 1 = true from by decide, fillGrid_ok _ _ hfit]

theorem table_layout_witness :
    _handle_table stdLayout1
        { heading := some "H",
          table := some { headers := some ["A", "B"], rows := some [["x", "y"], ["u", "v"]] } } =
      ⟨some (.tableSlide "H"
          [[("A", true), ("B", true)], [("x", false), ("y", false)],
           [("u", false), ("v", false)]]), .ok true⟩ := by
  have h := (table_layout_characterisation
      { heading := some "H",
        table := some { headers := some ["A", "B"], rows := some [["x", "y"], ["u", "v"]] } }
      "H" rfl).2.2 _ rfl rfl (by decide)
  rw [h]
  decide

/-- The key-message callout shape of a rendered slide, when present. -/
def slideCallout : ContentSlide → Option (List Run)
  | .doubleCol _ _ _ _ _ c => c
  | .bullets _ _ c => c
  | _ => none

theorem doubleCol_callout (layout4 : List (Nat × String)) (sj : SlideJson)
    (c : ContentSlide) (h : (_handle_double_col_layout layout4 sj).added = some c)
    (hc : c ≠ .abandoned) : slideCallout c = _handle_key_message sj := by
  unfold _handle_double_col_layout at h
  repeat' (first | split at h | simp only [HOut.added] at h)
  all_goals first
    | (simp_all [slideCallout]; done)
    | (subst h; simp [slideCallout])
    | (cases h; simp [slideCallout])

theorem textOnly_callout (layout1 : List (Nat × String)) (sj : SlideJson)
    (c : ContentSlide) (h : (defaultTextOnlySlide layout1 sj).added = some c)
    (hc : c ≠ .abandoned) : slideCallout c = _handle_key_message sj := by
  unfold defaultTextOnlySlide at h
  repeat' (first | split at h | simp only [HOut.added] at h)
  all_goals first
    | (simp_all [slideCallout]; done)
    | (subst h; simp [slideCallout])
    | (cases h; simp [slideCallout])

theorem icon_no_callout (sj : SlideJson) (c : ContentSlide)
    (h : (_handle_icons_ideas sj).added = some c) : slideCallout c = none := by
  unfold _handle_icons_ideas at h
  repeat' (first | split at h | simp only [HOut.added] at h)
  all_goals first
    | (simp_all [slideCallout]; done)
    | (subst h; simp [slideCallout])
    | (cases h; simp [slideCallout])

theorem table_no_callout (layout1 : List (Nat × String)) (sj : SlideJson)
    (c : ContentSlide) (h : (_handle_table layout1 sj).added = some c) :
    slideCallout c = none := by
  unfold _handle_table at h
  repeat' (first | split at h | simp only [HOut.added] at h)
  all_goals first
    | (simp_all [slideCallout]; done)
    | (subst h; simp [slideCallout])
    | (cases h; simp [slideCallout])

theorem step_no_callout (sj : SlideJson) (c : ContentSlide)
    (h : (_handle_step_by_step_process sj).added = some c) : slideCallout c = none := by
  unfold _handle_step_by_step_process at h
  repeat' (first | split at h | simp only [HOut.added] at h)
  all_goals first
    | (simp_all [slideCallout]; done)
    | (subst h; simp [slideCallout])
    | (cases h; simp [slideCallout])

theorem fg_no_callout (layout8 : List (Nat × String)) (px : Option (String × String))
    (sj : SlideJson) (c : ContentSlide)
    (h : (_handle_display_image__in_foreground layout8 px sj).added = some c) :
    slideCallout c = none := by
  unfold _handle_display_image__in_foreground at h
  repeat' (first | split at h | simp only [HOut.added] at h)
  all_goals first
    | (simp_all [slideCallout]; done)
    | (subst h; simp [slideCallout])
    | (cases h; simp [slideCallout])

theorem bg_no_callout (layout1 : List (Nat × String)) (px : Option (String × String))
    (sj : SlideJson) (c : ContentSlide)
    (h : (_handle_display_image__in_background layout1 px sj).added = some c) :
    slideCallout c = none := by
  unfold _handle_display_image__in_background at h
  repeat' (first | split at h | simp only [HOut.added] at h)
  all_goals first
    | (simp_all [slideCallout]; done)
    | (subst h; simp [slideCallout])
    | (cases h; simp [slideCallout])

def c4Slide : SlideJson :=
  { heading := some "P",
    bullet_points := some [.str ">> a", .str ">> b", .str ">> c"],
    key_message := some "Key point" }

/-- **C4 counterexample**: a step-by-step process slide with a non-empty
`key_message` renders WITHOUT the callout shape —
`_handle_step_by_step_process` never calls `_handle_key_message`, so the
claim that layout 4 receives the callout is false. -/
theorem step_slide_lacks_key_message_callout :
    (_handle_step_by_step_process c4Slide).added =
      some (.stepsH "P" [[.plain "a"], [.plain "b"], [.plain "c"]]) ∧
    slideCallout (.stepsH "P" [[.plain "a"], [.plain "b"], [.plain "c"]]) = none ∧
    c4Slide.key_message = some "Key point" := by
  refine ⟨by decide, rfl, rfl⟩

/-- **C4 amended**: the key-message callout is attached exactly by the
double-column renderer and the text-only default renderer (where it carries
the formatted `key_message` when that key is present and non-empty);
icon-grid, table, step-process and both image-decorated default variants
never attach it. -/
theorem key_message_callout_placement :
    (∀ layout4 sj c, (_handle_double_col_layout layout4 sj).added = some c →
        c ≠ .abandoned → slideCallout c = _handle_key_message sj) ∧
    (∀ layout1 sj c, (defaultTextOnlySlide layout1 sj).added = some c →
        c ≠ .abandoned → slideCallout c = _handle_key_message sj) ∧
    (∀ sj km, sj.key_message = some km → km ≠ "" →
        _handle_key_message sj = some (format_text km)) ∧
    (∀ sj c, (_handle_icons_ideas sj).added = some c → slideCallout c = none) ∧
    (∀ layout1 sj c, (_handle_table layout1 sj).added = some c → slideCallout c = none) ∧
    (∀ sj c, (_handle_step_by_step_process sj).added = some c → slideCallout c = none) ∧
    (∀ layout8 px sj c, (_handle_display_image__in_foreground layout8 px sj).added = some c →
        slideCallout c = none) ∧
    (∀ layout1 px sj c, (_handle_display_image__in_background layout1 px sj).added = some c →
        slideCallout c = none) :=
  ⟨doubleCol_callout, textOnly_callout,
   fun sj km hkm hne => by simp [_handle_key_message, hkm, hne],
   icon_no_callout, table_no_callout, step_no_callout, fg_no_callout, bg_no_callout⟩

def c4DcSlide : SlideJson :=
  { heading := some "DC",
    bullet_points := some [.dict (some "L") none, .dict (some "R") none],
    key_message := some "KM" }

theorem key_message_callout_witness :
    slideCallout (ContentSlide.doubleCol "DC" (some "L") (some "R")
        freshFrame freshFrame (some [Run.plain "KM"])) =
      _handle_key_message c4DcSlide :=
  key_message_callout_placement.1 stdLayout4 c4DcSlide _ (by decide) (by decide)

def isStrItem : Item → Bool
  | .str _ => true
  | _ => false

/-- Claim-side acceptance predicate of the icon-grid layout: `bullet_points`
present, truthy, and every item an icon-marked string. -/
def iconAccepts (s : SlideJson) : Bool :=
  match s.bullet_points with
  | some items => !items.isEmpty && items.all isIconStr
  | none => false

/-- Claim-side acceptance predicate of the table layout. -/
def tableAccepts (s : SlideJson) : Bool :=
  match s.table with
  | some t => tableTruthy t
  | none => false

/-- Claim-side acceptance predicate of the double-column layout. -/
def doubleColAccepts (s : SlideJson) : Bool :=
  match s.bullet_points with
  | some [.dict _ _, .dict _ _] => true
  | _ => false

/-- Claim-side predicate for the step handler ending the chain by a
non-`False` return: either it renders a valid step list, or it swallows a
missing/falsy `bullet_points`. -/
def stepTakes (s : SlideJson) : Bool :=
  match s.bullet_points with
  | none => true
  | some items =>
    items.isEmpty ||
      (items.all isStrItem &&
        (decide (4 * (countNoMarker items).getD 0 ≤ items.length) ||
          stepWaiver (pyLower (s.heading.getD ""))) &&
        decide (3 ≤ items.length) && decide (items.length ≤ 6))

inductive LayoutTag where
  | icon | table | doubleCol | step | defaultLayout
deriving Repr, DecidableEq

/-- Claim-side classification: the five predicates evaluated in the fixed
priority order, first match wins. -/
def classify (s : SlideJson) : LayoutTag :=
  if iconAccepts s then .icon
  else if tableAccepts s then .table
  else if doubleColAccepts s then .doubleCol
  else if stepTakes s then .step
  else .defaultLayout

/-- Which classifier stage produced a rendered slide. -/
def layoutOf : ContentSlide → Option LayoutTag
  | .abandoned => none
  | .iconGrid _ _ => some .icon
  | .tableSlide _ _ => some .table
  | .doubleCol _ _ _ _ _ _ => some .doubleCol
  | .stepsH _ _ => some .step
  | .stepsV _ _ => some .step
  | .bullets _ _ _ => some .defaultLayout
  | .bulletsFgImage _ _ _ => some .defaultLayout
  | .bulletsBgImage _ _ _ => some .defaultLayout

theorem icon_result_false_iff (sj : SlideJson) :
    ((_handle_icons_ideas sj).result = .ok false) ↔ iconAccepts sj = false := by
  unfold _handle_icons_ideas iconAccepts
  rcases sj.bullet_points with - | items
  · simp
  · by_cases he : items.isEmpty
    · simp [he]
    · by_cases ha : items.all isIconStr
      · simp only [he, ha, if_false, if_true, Bool.not_false, Bool.true_and]
        rcases sj.heading with - | hd
        · simp
        · rcases parseIcons items with - | its <;> simp
      · simp [he, ha]

theorem table_result_false_iff (layout1 : List (Nat × String)) (sj : SlideJson) :
    ((_handle_table layout1 sj).result = .ok false) ↔ tableAccepts sj = false := by
  unfold _handle_table tableAccepts
  rcases sj.table with - | t
  · simp
  · by_cases htt : tableTruthy t = true
    · simp only [htt, if_true]
      rcases sj.heading with - | hd
      · simp
      · by_cases hi : hasIdx layout1 1 = true
        · simp only [hi, if_true]
          rcases fillGrid (t.headers.getD []) (t.rows.getD []) with g | e <;> simp
        · simp [hi]
    · simp [htt]

theorem dc_result_false_iff (layout4 : List (Nat × String)) (sj : SlideJson) :
    ((_handle_double_col_layout layout4 sj).result = .ok false) ↔
      doubleColAccepts sj = false := by
  unfold _handle_double_col_layout doubleColAccepts
  rcases hbp : sj.bullet_points with - | items
  · simp
  · match items with
    | [] => simp
    | [.str s] => simp
    | [.list xs] => simp
    | [.dict a b] => simp
    | .str s :: y :: rest => simp
    | .list xs :: y :: rest => simp
    | .dict a b :: y :: z :: rest => simp
    | [.dict a b, .str s] => simp
    | [.dict a b, .list xs] => simp
    | [.dict h0 b0, .dict h1 b1] =>
      simp only [List.isEmpty_cons, Bool.false_eq_true, if_false]
      rcases sj.heading with - | hd
      · simp
      · rcases resolvePair layout4 1 3 "text placeholder" with e | ⟨lh, rh⟩
        · simp
        · rcases resolvePair layout4 2 4 "content placeholder" with e | ⟨lc, rc⟩
          · simp
          · by_cases hlc : lc.isNone = true ∨ rc.isNone = true
            · simp only [hlc, if_true]; simp
            · simp only [hlc, if_false]
              rcases buildColumn lh h0 b0 with e | ⟨lht, lf⟩
              · simp
              · rcases buildColumn rh h1 b1 with e | ⟨rht, rf⟩ <;> simp

theorem countNoMarker_allStr (items : List Item) :
    ∀ nm, countNoMarker items = some nm → items.all isStrItem = true := by
  induction items with
  | nil => intro nm h; rfl
  | cons it rest ih =>
    intro nm h
    match it with
    | .str s =>
      rw [countNoMarker, Option.map_eq_some'] at h
      obtain ⟨m, hm, -⟩ := h
      simp [List.all_cons, isStrItem, ih m hm]
    | .list xs => simp [countNoMarker] at h
    | .dict a b => simp [countNoMarker] at h

theorem countNoMarker_none (items : List Item) (h : countNoMarker items = none) :
    items.all isStrItem = false := by
  induction items with
  | nil => simp [countNoMarker] at h
  | cons it rest ih =>
    match it with
    | .str s =>
      rw [countNoMarker, Option.map_eq_none'] at h
      simp [List.all_cons, isStrItem, ih h]
    | .list xs => simp [List.all_cons, isStrItem]
    | .dict a b => simp [List.all_cons, isStrItem]

theorem step_result_false_imp (sj : SlideJson)
    (h : (_handle_step_by_step_process sj).result = .ok false) : stepTakes sj = false := by
  rcases hbp : sj.bullet_points with - | items
  · simp [_handle_step_by_step_process, hbp] at h
  · by_cases he : items.isEmpty = true
    · simp [_handle_step_by_step_process, hbp, he] at h
    · rw [Bool.not_eq_true] at he
      rcases hcn : countNoMarker items with - | nm
      · simp [stepTakes, hbp, he, countNoMarker_none items hcn]
      · have hall := countNoMarker_allStr items nm hcn
        rcases hh : sj.heading with - | hd
        · simp [_handle_step_by_step_process, hbp, he, hcn, hh] at h
        · simp only [_handle_step_by_step_process, hbp, he, hcn, hh, Bool.false_eq_true,
            if_false] at h
          simp only [stepTakes, hbp, he, hcn, hh, hall, Option.getD_some, Bool.false_or,
            Bool.true_and]
          by_cases hthr : 4 * nm > items.length ∧ ¬ stepWaiver (pyLower hd) = true
          · have h1 : decide (4 * nm ≤ items.length) = false := by
              have := hthr.1; simp; omega
            have h2 : stepWaiver (pyLower hd) = false := by
              simpa using hthr.2
            simp [h1, h2]
          · rw [if_neg hthr] at h
            by_cases hrange : items.length < 3 ∨ items.length > 6
            · rcases hrange with hr | hr
              · have : decide (3 ≤ items.length) = false := by simp; omega
                simp [this]
              · have : decide (items.length ≤ 6) = false := by simp; omega
                simp [this]
            · rw [if_neg hrange] at h
              by_cases h4 : items.length ≤ 4
              · rw [if_pos h4] at h; simp at h
              · rw [if_neg h4] at h; simp at h

theorem step_added_imp (sj : SlideJson) (c : ContentSlide)
    (h : (_handle_step_by_step_process sj).added = some c) :
    layoutOf c = some .step ∧ stepTakes sj = true := by
  rcases hbp : sj.bullet_points with - | items
  · simp [_handle_step_by_step_process, hbp] at h
  · by_cases he : items.isEmpty = true
    · simp [_handle_step_by_step_process, hbp, he] at h
    · rw [Bool.not_eq_true] at he
      rcases hcn : countNoMarker items with - | nm
      · simp [_handle_step_by_step_process, hbp, he, hcn] at h
      · have hall := countNoMarker_allStr items nm hcn
        rcases hh : sj.heading with - | hd
        · simp [_handle_step_by_step_process, hbp, he, hcn, hh] at h
        · simp only [_handle_step_by_step_process, hbp, he, hcn, hh, Bool.false_eq_true,
            if_false] at h
          simp only [stepTakes, hbp, he, hcn, hh, hall, Option.getD_some, Bool.false_or,
            Bool.true_and]
          by_cases hthr : 4 * nm > items.length ∧ ¬ stepWaiver (pyLower hd) = true
          · rw [if_pos hthr] at h; simp at h
          · rw [if_neg hthr] at h
            by_cases hrange : items.length < 3 ∨ items.length > 6
            · rw [if_pos hrange] at h; simp at h
            · rw [if_neg hrange] at h
              push_neg at hrange
              have hcond : (decide (4 * nm ≤ items.length) ||
                  stepWaiver (pyLower hd)) = true := by
                by_cases hw : stepWaiver (pyLower hd) = true
                · simp [hw]
                · have : 4 * nm ≤ items.length := by
                    by_contra hc
                    exact hthr ⟨by omega, hw⟩
                  simp [this]
              have h3 : decide (3 ≤ items.length) = true := by simp; omega
              have h6 : decide (items.length ≤ 6) = true := by simp; omega
              by_cases h4 : items.length ≤ 4
              · rw [if_pos h4] at h
                simp only [Option.some.injEq] at h
                subst h
                simp [layoutOf, hcond, h3, h6]
              · rw [if_neg h4] at h
                simp only [Option.some.injEq] at h
                subst h
                simp [layoutOf, hcond, h3, h6]

theorem icon_added_imp (sj : SlideJson) (c : ContentSlide)
    (h : (_handle_icons_ideas sj).added = some c) (hc : c ≠ .abandoned) :
    layoutOf c = some .icon ∧ iconAccepts sj = true := by
  unfold _handle_icons_ideas at h
  repeat' (first | split at h | simp only [HOut.added] at h)
  all_goals first
    | (simp_all [layoutOf, iconAccepts]; done)
    | (cases h; simp_all [layoutOf, iconAccepts])

theorem table_added_imp (layout1 : List (Nat × String)) (sj : SlideJson) (c : ContentSlide)
    (h : (_handle_table layout1 sj).added = some c) (hc : c ≠ .abandoned) :
    layoutOf c = some .table ∧ tableAccepts sj = true := by
  unfold _handle_table at h
  repeat' (first | split at h | simp only [HOut.added] at h)
  all_goals first
    | (simp_all [layoutOf, tableAccepts]; done)
    | (cases h; simp_all [layoutOf, tableAccepts])

theorem dc_added_imp (layout4 : List (Nat × String)) (sj : SlideJson) (c : ContentSlide)
    (h : (_handle_double_col_layout layout4 sj).added = some c) (hc : c ≠ .abandoned) :
    layoutOf c = some .doubleCol ∧ doubleColAccepts sj = true := by
  unfold _handle_double_col_layout at h
  repeat' (first | split at h | simp only [HOut.added] at h)
  all_goals first
    | (simp_all [layoutOf, doubleColAccepts]; done)
    | (cases h; simp_all [layoutOf, doubleColAccepts])

theorem default_added_imp (layout1 layout8 : List (Nat × String)) (decor : DecorDecision)
    (pexels : Option (String × String)) (sj : SlideJson) (c : ContentSlide)
    (h : (_handle_default_display layout1 layout8 decor pexels sj).added = some c)
    (hc : c ≠ .abandoned) : layoutOf c = some .defaultLayout := by
  unfold _handle_default_display defaultTextOnlySlide _handle_display_image__in_foreground
    _handle_display_image__in_background at h
  repeat' (first | split at h | simp only [HOut.added] at h)
  all_goals first
    | (simp_all [layoutOf]; done)
    | (cases h; simp_all [layoutOf])

theorem processSlide_eq_icon (tpl : Templates) (decor : DecorDecision)
    (pexels : Option (String × String)) (sj : SlideJson)
    (h : (_handle_icons_ideas sj).result ≠ .ok false) :
    processSlide tpl decor pexels sj = _handle_icons_ideas sj := by
  unfold processSlide
  rcases hr : (_handle_icons_ideas sj).result with e | b
  · simp [hr]
  · cases b
    · exact absurd hr h
    · simp [hr]

theorem processSlide_eq_table (tpl : Templates) (decor : DecorDecision)
    (pexels : Option (String × String)) (sj : SlideJson)
    (h1 : (_handle_icons_ideas sj).result = .ok false)
    (h2 : (_handle_table tpl.layout1 sj).result ≠ .ok false) :
    processSlide tpl decor pexels sj = _handle_table tpl.layout1 sj := by
  unfold processSlide
  simp only [h1]

theorem processSlide_eq_dc (tpl : Templates) (decor : DecorDecision)
    (pexels : Option (String × String)) (sj : SlideJson)
    (h1 : (_handle_icons_ideas sj).result = .ok false)
    (h2 : (_handle_table tpl.layout1 sj).result = .ok false)
    (h3 : (_handle_double_col_layout tpl.layout4 sj).result ≠ .ok false) :
    processSlide tpl decor pexels sj = _handle_double_col_layout tpl.layout4 sj := by
  unfold processSlide
  simp only [h1, h2]

theorem processSlide_eq_step (tpl : Templates) (decor : DecorDecision)
    (pexels : Option (String × String)) (sj : SlideJson)
    (h1 : (_handle_icons_ideas sj).result = .ok false)
    (h2 : (_handle_table tpl.layout1 sj).result = .ok false)
    (h3 : (_handle_double_col_layout tpl.layout4 sj).result = .ok false)
    (h4 : (_handle_step_by_step_process sj).result ≠ .ok false) :
    processSlide tpl decor pexels sj = _handle_step_by_step_process sj := by
  unfold processSlide
  simp only [h1, h2, h3]

theorem processSlide_eq_default (tpl : Templates) (decor : DecorDecision)
    (pexels : Option (String × String)) (sj : SlideJson)
    (h1 : (_handle_icons_ideas sj).result = .ok false)
    (h2 : (_handle_table tpl.layout1 sj).result = .ok false)
    (h3 : (_handle_double_col_layout tpl.layout4 sj).result = .ok false)
    (h4 : (_handle_step_by_step_process sj).result = .ok false) :
    processSlide tpl decor pexels sj =
      _handle_default_display tpl.layout1 tpl.layout8 decor pexels sj := by
  unfold processSlide
  simp only [h1, h2, h3, h4]

/-- **C7**: the classifier evaluates icon-grid, table, double-column,
step-process, default in this fixed order; whenever a content slide is
rendered it belongs to the first stage whose predicate holds; and an
icon-grid-shaped slide is always taken by the icon handler, every later
handler being skipped. -/
theorem classifier_priority :
    (∀ tpl decor pexels sj c,
        (processSlide tpl decor pexels sj).added = some c → c ≠ .abandoned →
        layoutOf c = some (classify sj)) ∧
    (∀ tpl decor pexels sj, iconAccepts sj = true →
        processSlide tpl decor pexels sj = _handle_icons_ideas sj) := by
  constructor
  · intro tpl decor pexels sj c h hc
    by_cases hr1 : (_handle_icons_ideas sj).result = .ok false
    · have hic : iconAccepts sj = false := (icon_result_false_iff sj).mp hr1
      by_cases hr2 : (_handle_table tpl.layout1 sj).result = .ok false
      · have hta : tableAccepts sj = false := (table_result_false_iff tpl.layout1 sj).mp hr2
        by_cases hr3 : (_handle_double_col_layout tpl.layout4 sj).result = .ok false
        · have hdc : doubleColAccepts sj = false :=
            (dc_result_false_iff tpl.layout4 sj).mp hr3
          by_cases hr4 : (_handle_step_by_step_process sj).result = .ok false
          · have hst : stepTakes sj = false := step_result_false_imp sj hr4
            rw [processSlide_eq_default tpl decor pexels sj hr1 hr2 hr3 hr4] at h
            have := default_added_imp tpl.layout1 tpl.layout8 decor pexels sj c h hc
            simp [classify, hic, hta, hdc, hst, this]
          · rw [processSlide_eq_step tpl decor pexels sj hr1 hr2 hr3 hr4] at h
            have := step_added_imp sj c h
            simp [classify, hic, hta, hdc, this.2, this.1]
        · rw [processSlide_eq_dc tpl decor pexels sj hr1 hr2 hr3] at h
          have := dc_added_imp tpl.layout4 sj c h hc
          simp [classify, hic, hta, this.2, this.1]
      · rw [processSlide_eq_table tpl decor pexels sj hr1 hr2] at h
        have := table_added_imp tpl.layout1 sj c h hc
        simp [classify, hic, this.2, this.1]
    · rw [processSlide_eq_icon tpl decor pexels sj hr1] at h
      have := icon_added_imp sj c h hc
      simp [classify, this.2, this.1]
  · intro tpl decor pexels sj hic
    refine processSlide_eq_icon tpl decor pexels sj ?_
    intro hr
    rw [icon_result_false_iff sj] at hr
    rw [hic] at hr
    cases hr

def c7Slide : SlideJson :=
  { heading := some "I", bullet_points := some [.str "[[brain]] Mind", .str "[[robot]] Bot"] }

theorem classifier_priority_witness :
    processSlide stdTemplates .noImage none c7Slide = _handle_icons_ideas c7Slide ∧
    layoutOf (.iconGrid "I" [("brain", "Mind"), ("robot", "Bot")]) = some (classify c7Slide) :=
  ⟨classifier_priority.2 stdTemplates .noImage none c7Slide (by decide),
   classifier_priority.1 stdTemplates .noImage none c7Slide _
     (by rw [classifier_priority.2 stdTemplates .noImage none c7Slide (by decide)]; decide)
     (by decide)⟩

def c9Layout8 : List (Nat × String) := [(0, "Title 1"), (10, "Chart Placeholder 2")]

def c9Slide : SlideJson :=
  { heading := some "H", bullet_points := some [.str "x"], img_keywords := some "cats" }

/-- **C9 counterexample**: when neither the fast-path index nor a name-based
match exists for the picture layout's text role, the role resolves to `None`
but the renderer then RAISES `AttributeError` at
`add_bulleted_items(text_col.text_frame, ...)` instead of degrading
gracefully (the claim asserts it never raises for any role of the
double-column and picture layouts). -/
theorem text_role_miss_raises :
    _handle_display_image__in_foreground c9Layout8 (some ("url", "page")) c9Slide =
      ⟨some .abandoned, .error (.attributeError "NoneType has no attribute text_frame")⟩ := by
  decide

/-- **C9 amended**: an unmatched role resolves to `None`; the double-column
HEADING roles and the picture layout's PICTURE role then degrade gracefully
(the slide still renders, headings folded into the body, picture skipped),
but a `None` CONTENT/text role makes the renderer raise `AttributeError`
(which the assembler catches, skipping the slide). -/
theorem placeholder_role_miss_behaviour :
    (∀ layout4 sj hd h0 b0 h1 b1 i j,
        sj.heading = some hd →
        sj.bullet_points = some [.dict (some h0) (some b0), .dict (some h1) (some b1)] →
        resolvePair layout4 1 3 "text placeholder" = .ok (none, none) →
        resolvePair layout4 2 4 "content placeholder" = .ok (some i, some j) →
        _handle_double_col_layout layout4 sj =
          ⟨some (.doubleCol (remove_slide_number_from_heading hd) none none
              (add_bulleted_items (frameSetText h0) (get_flat_list_of_contents b0 0))
              (add_bulleted_items (frameSetText h1) (get_flat_list_of_contents b1 0))
              (_handle_key_message sj)), .ok true⟩) ∧
    (∀ layout4 sj hd a b c d lh rh lc rc,
        sj.heading = some hd →
        sj.bullet_points = some [.dict a b, .dict c d] →
        resolvePair layout4 1 3 "text placeholder" = .ok (lh, rh) →
        resolvePair layout4 2 4 "content placeholder" = .ok (lc, rc) →
        (lc = none ∨ rc = none) →
        _handle_double_col_layout layout4 sj =
          ⟨some .abandoned, .error (.attributeError "NoneType has no attribute text_frame")⟩) ∧
    (∀ layout8 px sj kw hd bps pc,
        sj.img_keywords = some kw → sj.heading = some hd → sj.bullet_points = some bps →
        (if hasIdx layout8 1 = true then Except.ok (some 1)
          else (get_slide_placeholders layout8).map (findLast "picture")) = .ok pc →
        (if hasIdx layout8 2 = true then Except.ok (some 2)
          else (get_slide_placeholders layout8).map (findLast "content")) =
          .ok (none : Option Nat) →
        _handle_display_image__in_foreground layout8 px sj =
          ⟨some .abandoned, .error (.attributeError "NoneType has no attribute text_frame")⟩) ∧
    (∀ layout8 px sj kw hd bps tc,
        sj.img_keywords = some kw → sj.heading = some hd → sj.bullet_points = some bps →
        (if hasIdx layout8 1 = true then Except.ok (some 1)
          else (get_slide_placeholders layout8).map (findLast "picture")) =
          .ok (none : Option Nat) →
        (if hasIdx layout8 2 = true then Except.ok (some 2)
          else (get_slide_placeholders layout8).map (findLast "content")) = .ok (some tc) →
        _handle_display_image__in_foreground layout8 px sj =
          ⟨some (.bulletsFgImage (remove_slide_number_from_heading hd)
              (add_bulleted_items freshFrame (get_flat_list_of_contents bps 0)) false),
            .ok true⟩) := by
  refine ⟨?_, ?_, ?_, ?_⟩
  · intro layout4 sj hd h0 b0 h1 b1 i j hh hbp hr1 hr2
    simp only [_handle_double_col_layout, hbp, hh, hr1, hr2, List.isEmpty_cons,
      Bool.false_eq_true, if_false, Option.isNone_some, Bool.false_eq_true, or_self,
      buildColumn, Option.isSome_some, Option.isSome_none]
  · intro layout4 sj hd a b c d lh rh lc rc hh hbp hr1 hr2 hnone
    simp only [_handle_double_col_layout, hbp, hh, hr1, hr2, List.isEmpty_cons,
      Bool.false_eq_true, if_false]
    rcases hnone with h | h <;> simp [h]
  · intro layout8 px sj kw hd bps pc hkw hh hbp hr1 hr2
    simp only [_handle_display_image__in_foreground, hkw, hh, hbp, hr1, hr2]
    simp
  · intro layout8 px sj kw hd bps tc hkw hh hbp hr1 hr2
    simp only [_handle_display_image__in_foreground, hkw, hh, hbp, hr1, hr2]
    by_cases he : pyStrip kw = "" <;> simp [he]

def c9aLayout4 : List (Nat × String) :=
  [(0, "Title 1"), (11, "Content Placeholder 5"), (12, "Content Placeholder 6")]

def c9aSlide : SlideJson :=
  { heading := some "DC",
    bullet_points := some [.dict (some "L") (some []), .dict (some "R") (some [])] }

theorem placeholder_role_miss_witness :
    _handle_double_col_layout c9aLayout4 c9aSlide =
      ⟨some (.doubleCol "DC" none none ⟨[⟨0, [Run.plain "L"]⟩]⟩ ⟨[⟨0, [Run.plain "R"]⟩]⟩
          none), .ok true⟩ := by
  rw [placeholder_role_miss_behaviour.1 c9aLayout4 c9aSlide "DC" "L" [] "R" [] 11 12
    rfl rfl (by decide) (by decide)]
  simp [get_flat_list_of_contents, add_bulleted_items, frameSetText, _handle_key_message,
    remove_slide_number_from_heading, slideNumPrefixMatch, c9aSlide]

theorem genLoop_closed (env : Env) : ∀ (i : Nat) (slides : List SlideJson),
    genLoop env i slides =
      ((slides.enumFrom i).map fun p =>
        ((processSlide env.tpl (env.decorOf p.1) (env.pexelsOf p.1) p.2).added.toList.map
          DeckSlide.content)).flatten := by
  intro i slides
  induction slides generalizing i with
  | nil => simp [genLoop]
  | cons s rest ih => simp [genLoop, List.enumFrom, ih (i + 1)]

theorem generate_ok_eq (env : Env) (pd : ParsedData) (t : String) (sl : List SlideJson)
    (h1 : pd.title = some t) (h2 : pd.slides = some sl) :
    generate_powerpoint_presentation env pd =
      .ok { deck := .titleSlide t "by Myself and SlideDeck AI :)" ::
              (genLoop env 0 sl ++ [.closing "Thank you!"])
          , headers := [t], saved := true } := by
  unfold generate_powerpoint_presentation
  rw [h1, h2]
  rfl

/-- **C1**: generation raises exactly on a missing `title` or `slides` key
(`KeyError`, propagated); for every other input each slide is processed
inside the `try`, so a per-slide exception only loses that slide's own
content (what it had already added stays), processing continues with the
next SlideSpec, and the function returns successfully with the closing
'Thank you!' slide appended and the presentation saved. -/
theorem generation_fault_isolation (env : Env) (pd : ParsedData) :
    (pd.title = none → generate_powerpoint_presentation env pd = .error (.keyError "title")) ∧
    (∀ t, pd.title = some t → pd.slides = none →
        generate_powerpoint_presentation env pd = .error (.keyError "slides")) ∧
    (∀ t sl, pd.title = some t → pd.slides = some sl →
        generate_powerpoint_presentation env pd =
          .ok { deck := .titleSlide t "by Myself and SlideDeck AI :)" ::
                  ((((sl.enumFrom 0).map fun p =>
                    ((processSlide env.tpl (env.decorOf p.1) (env.pexelsOf p.1)
                        p.2).added.toList.map DeckSlide.content)).flatten) ++
                    [.closing "Thank you!"])
              , headers := [t], saved := true }) := by
  refine ⟨?_, ?_, ?_⟩
  · intro h
    unfold generate_powerpoint_presentation
    rw [h]
    rfl
  · intro t h1 h2
    unfold generate_powerpoint_presentation
    rw [h1, h2]
    rfl
  · intro t sl h1 h2
    rw [generate_ok_eq env pd t sl h1 h2, genLoop_closed]

def c1BadSlide : SlideJson := { bullet_points := some [.str "x", .str "y"] }

theorem generation_fault_isolation_witness :
    generate_powerpoint_presentation stdEnv
        { title := some "T", slides := some [c1BadSlide] } =
      .ok { deck := [.titleSlide "T" "by Myself and SlideDeck AI :)", .closing "Thank you!"],
            headers := ["T"], saved := true } ∧
    (processSlide stdTemplates .noImage none c1BadSlide).result =
      .error (.keyError "heading") := by
  constructor
  · rw [(generation_fault_isolation stdEnv
      { title := some "T", slides := some [c1BadSlide] }).2.2 "T" [c1BadSlide] rfl rfl]
    decide
  · decide

def c3Pd : ParsedData :=
  { title := some "T",
    slides := some
      [{ heading := some "Intro", bullet_points := some [.str ">> a", .str ">> b", .str ">> c"] }] }

/-- **C3 counterexample**: the single content slide renders with heading
"Intro", yet the returned list is `["T"]`, not `["T", "Intro"]` —
`all_headers` is initialised with the title and never appended to, so the
claimed list of slide headings is missing (the unit test of the repository
asserts the same `['Test Presentation']`-only behaviour). -/
theorem headers_lack_slide_headings :
    generate_powerpoint_presentation stdEnv c3Pd =
      .ok { deck := [.titleSlide "T" "by Myself and SlideDeck AI :)",
                     .content (.stepsH "Intro" [[.plain "a"], [.plain "b"], [.plain "c"]]),
                     .closing "Thank you!"],
            headers := ["T"], saved := true } ∧
    (["T"] : List String) ≠ ["T", "Intro"] := by
  constructor
  · decide
  · decide

/-- **C3 amended**: for every input with the required keys present the
function returns the singleton list holding only the presentation title;
slide headings are never appended. -/
theorem generate_returns_title_only (env : Env) (pd : ParsedData) (t : String)
    (sl : List SlideJson) (h1 : pd.title = some t) (h2 : pd.slides = some sl) :
    ∃ r, generate_powerpoint_presentation env pd = .ok r ∧ r.headers = [t] :=
  ⟨_, generate_ok_eq env pd t sl h1 h2, rfl⟩

theorem generate_returns_title_only_witness :
    ∃ r, generate_powerpoint_presentation stdEnv c3Pd = .ok r ∧ r.headers = ["T"] :=
  generate_returns_title_only stdEnv c3Pd "T" _ rfl rfl

end SlideDeckAI